import Mathlib

/-!
Shallow embedding of the promotion classification and offer-flattening core of
the `epic-games-free-games-notifier` repository, together with theorems
checking its natural-language specification.

Conventions of the embedding:
* `datetime` values become `Int` timestamps; the current time is passed as an
  explicit `now : Int` parameter (the Python code calls `datetime.now(...)`
  inside each predicate with the same clock).
* Python lists become `List`, `Optional[T]` becomes `Option T`.
* Pydantic validation failure on one raw element becomes an `Option`-valued
  constructor function: `none` models "construction raised, element skipped".
-/

/-- Status of a free game promotion (`GameStatus` in `models.py`). -/
inductive GameStatus where
  | active
  | upcoming
  | expired
deriving Repr, DecidableEq

/-- Discount settings for a promotional offer (`DiscountSetting`). -/
structure DiscountSetting where
  discount_type : String
  discount_percentage : Int
deriving Repr, DecidableEq

/-- Individual promotional offer with dates and discount info
(`PromotionalOffer`); timestamps embedded as `Int`. -/
structure PromotionalOffer where
  start_date : Int
  end_date : Int
  discount_setting : DiscountSetting
deriving Repr, DecidableEq

/-- `PromotionalOffer.is_active`: `start_date <= now < end_date`. -/
def PromotionalOffer.is_active (o : PromotionalOffer) (now : Int) : Bool :=
  decide (o.start_date ≤ now ∧ now < o.end_date)

/-- `PromotionalOffer.is_upcoming`: `now < start_date`. -/
def PromotionalOffer.is_upcoming (o : PromotionalOffer) (now : Int) : Bool :=
  decide (now < o.start_date)

/-- Group of promotional offers (`PromotionalOfferGroup`). -/
structure PromotionalOfferGroup where
  promotional_offers : List PromotionalOffer
deriving Repr, DecidableEq

/-- Container for promotional offers (`Promotions`). -/
structure Promotions where
  promotional_offers : List PromotionalOfferGroup
  upcoming_promotional_offers : List PromotionalOfferGroup
deriving Repr, DecidableEq

/-- `Promotions.get_all_offers`: the Python method starts from an empty list
and `extend`s it with each current group's offers, then each upcoming group's
offers; embedded as the corresponding left folds. -/
def Promotions.get_all_offers (p : Promotions) : List PromotionalOffer :=
  let offers :=
    p.promotional_offers.foldl
      (fun acc group => acc ++ group.promotional_offers) []
  p.upcoming_promotional_offers.foldl
    (fun acc group => acc ++ group.promotional_offers) offers

/-- `Promotions.get_current_offers`. -/
def Promotions.get_current_offers (p : Promotions) : List PromotionalOffer :=
  p.promotional_offers.foldl
    (fun acc group => acc ++ group.promotional_offers) []

/-- `Promotions.get_upcoming_offers`. -/
def Promotions.get_upcoming_offers (p : Promotions) : List PromotionalOffer :=
  p.upcoming_promotional_offers.foldl
    (fun acc group => acc ++ group.promotional_offers) []

/-- Game image information (`KeyImage`). -/
structure KeyImage where
  type : String
  url : String
deriving Repr, DecidableEq

/-- Seller/Publisher information (`Seller`). -/
structure Seller where
  name : String
deriving Repr, DecidableEq

/-- Model representing a free game (`FreeGame`); the `price` field is plumbing
not used by any classified property and is omitted.  The Python field
`namespace` is a Lean keyword and is embedded as `game_namespace`. -/
structure FreeGame where
  title : String
  description : String
  id : String
  game_namespace : String
  seller : Seller
  product_slug : Option String
  url_slug : Option String
  key_images : List KeyImage
  promotions : Option Promotions
  effective_date : Int
deriving Repr, DecidableEq

/-- `FreeGame.publisher`. -/
def FreeGame.publisher (g : FreeGame) : String :=
  g.seller.name

/-- Python `or` on optional strings: an empty string is falsy and falls
through to the alternative, as in `self.product_slug or self.url_slug or
self.id`. -/
def pyOrStr (a : Option String) (b : String) : String :=
  match a with
  | some s => if s.isEmpty then b else s
  | none => b

/-- `FreeGame.store_url`. -/
def FreeGame.store_url (g : FreeGame) : String :=
  "https://store.epicgames.com/en-US/p/" ++ pyOrStr g.product_slug (pyOrStr g.url_slug g.id)

/-- The preferred image types scanned for by `FreeGame.thumbnail_url`. -/
def preferredImageTypes : List String :=
  ["Thumbnail", "OfferImageWide", "DieselStoreFrontWide"]

/-- The `for img in self.key_images` loop of `thumbnail_url`: returns the url
of the first image whose type is in the preferred list, else `none`. -/
def thumbnailLoop : List KeyImage → Option String
  | [] => none
  | img :: rest =>
    if preferredImageTypes.contains img.type then some img.url
    else thumbnailLoop rest

/-- `FreeGame.thumbnail_url`: the scan loop, then the
`self.key_images[0].url if self.key_images else None` fallback. -/
def FreeGame.thumbnail_url (g : FreeGame) : Option String :=
  match thumbnailLoop g.key_images with
  | some u => some u
  | none =>
    match g.key_images with
    | [] => none
    | img :: _ => some img.url

/-- `FreeGame.current_promotions`. -/
def FreeGame.current_promotions (g : FreeGame) (now : Int) : List PromotionalOffer :=
  match g.promotions with
  | none => []
  | some p => p.get_all_offers.filter (fun o => o.is_active now)

/-- `FreeGame.is_free`: any flattened offer with `discount_percentage == 0`. -/
def FreeGame.is_free (g : FreeGame) : Bool :=
  match g.promotions with
  | none => false
  | some p =>
    p.get_all_offers.any (fun o => o.discount_setting.discount_percentage == 0)

/-- The `for offer in all_offers` loop of `FreeGame.status`. -/
def statusLoop (offers : List PromotionalOffer) (now : Int) : GameStatus :=
  match offers with
  | [] => .expired
  | o :: rest =>
    if o.discount_setting.discount_percentage == 0 then
      if o.is_active now then .active
      else if o.is_upcoming now then .upcoming
      else statusLoop rest now
    else statusLoop rest now

/-- `FreeGame.status`. -/
def FreeGame.status (g : FreeGame) (now : Int) : GameStatus :=
  match g.promotions with
  | none => .expired
  | some p =>
    let all_offers := p.get_all_offers
    if all_offers.isEmpty then .expired
    else statusLoop all_offers now

/-- `FreeGame.available_from`: start date of `all_offers[0]`. -/
def FreeGame.available_from (g : FreeGame) : Option Int :=
  match g.promotions with
  | none => none
  | some p =>
    match p.get_all_offers with
    | [] => none
    | o :: _ => some o.start_date

/-- `FreeGame.available_until`: end date of `all_offers[0]`. -/
def FreeGame.available_until (g : FreeGame) : Option Int :=
  match g.promotions with
  | none => none
  | some p =>
    match p.get_all_offers with
    | [] => none
    | o :: _ => some o.end_date

/-- Verification helper: the flattened offer sequence of an entry (empty when
the promotions block is absent). -/
def FreeGame.allOffersOf (g : FreeGame) : List PromotionalOffer :=
  match g.promotions with
  | none => []
  | some p => p.get_all_offers

/-! ## Response parser (`FreeGamesResponse.games`)

A raw element of the payload's entry array.  Pydantic raises on a missing
required field, an unparseable timestamp or a wrong-typed value; the
embedding records each required field as `Option`-valued (`none` = the field
is missing, unparseable or ill-typed, so `FreeGame(**element)` raises) and
keeps the defaulted fields at their parsed values. -/
structure RawElement where
  title : Option String
  description : Option String
  id : Option String
  game_namespace : Option String
  seller : Option Seller
  product_slug : Option String
  url_slug : Option String
  key_images : List KeyImage
  promotions : Option Promotions
  effective_date : Option Int
deriving Repr, DecidableEq

/-- `FreeGame(**element)`: succeeds iff every required field validates;
`none` models the validation exception. -/
def constructFreeGame (e : RawElement) : Option FreeGame :=
  match e.title, e.description, e.id, e.game_namespace, e.seller, e.effective_date with
  | some t, some d, some i, some ns, some s, some ed =>
    some
      { title := t
        description := d
        id := i
        game_namespace := ns
        seller := s
        product_slug := e.product_slug
        url_slug := e.url_slug
        key_images := e.key_images
        promotions := e.promotions
        effective_date := ed }
  | _, _, _, _, _, _ => none

/-- Response model (`FreeGamesResponse`), already navigated to the
`data.Catalog.searchStore.elements` array. -/
structure FreeGamesResponse where
  elements : List RawElement
deriving Repr, DecidableEq

/-- `FreeGamesResponse.games`: the `for element in elements` loop with the
`try: ... except Exception: continue` skip and the
`status in [ACTIVE, UPCOMING]` retention filter. -/
def gamesLoop (elements : List RawElement) (now : Int) : List FreeGame :=
  match elements with
  | [] => []
  | e :: rest =>
    match constructFreeGame e with
    | none => gamesLoop rest now
    | some game =>
      if game.status now == GameStatus.active || game.status now == GameStatus.upcoming then
        game :: gamesLoop rest now
      else
        gamesLoop rest now

/-- `FreeGamesResponse.games`. -/
def FreeGamesResponse.games (r : FreeGamesResponse) (now : Int) : List FreeGame :=
  gamesLoop r.elements now

/-! ## API client (`api_client.py`) -/

/-- The exception raised while performing the GET in `get_free_games`
(`requests.exceptions.Timeout`, `requests.exceptions.HTTPError` with a
status code, or any other `requests.exceptions.RequestException`). -/
inductive RequestFailure where
  | timeout
  | httpError (statusCode : Nat)
  | requestException
deriving Repr, DecidableEq

/-- The kind of typed exception `get_free_games` re-raises
(`exceptions.py`: `NetworkError`, `RateLimitError`, `InvalidResponseError`). -/
inductive ApiErrorKind where
  | networkError
  | rateLimitError
  | invalidResponseError
deriving Repr, DecidableEq

/-- The `except` chain of `get_free_games` (api_client.py lines 100-114):
which typed exception kind each request failure is re-raised as. -/
def get_free_games_error_kind : RequestFailure → ApiErrorKind
  | .timeout => .networkError
  | .httpError statusCode =>
    if statusCode == 429 then .rateLimitError else .networkError
  | .requestException => .networkError

/-- One element of the payload's top-level `errors` array; `errorCode` is
`none` when the element has no `errorCode` key (Python `error.get`). -/
structure ApiErrorObject where
  errorCode : Option String
deriving Repr, DecidableEq

/-- The raw decoded response: the optional top-level `errors` array plus the
rest of the payload, kept opaque. -/
structure RawResponse where
  errors : Option (List ApiErrorObject)
  body : String
deriving Repr, DecidableEq

/-- `EpicGamesClient._clean_response_errors`: when the `errors` key is
present, keep only elements whose code is not `"1004"`; re-store them when
any remain, otherwise pop the key. -/
def clean_response_errors (data : RawResponse) : RawResponse :=
  match data.errors with
  | none => data
  | some errs =>
    let cleaned := errs.filter (fun e => !(e.errorCode == some "1004"))
    if cleaned.isEmpty then { data with errors := none }
    else { data with errors := some cleaned }

/-! ## Discord notifier (`discord_notifier.py`) -/

/-- Discord configuration fields read by the notifier; `webhook_url` is
`none` when unset/falsy. -/
structure DiscordConfig where
  enabled : Bool
  webhook_url : Option String
  mention_role_id : Option String
deriving Repr, DecidableEq

/-- A Discord embed as built by `_create_game_embed`; timestamps stay `Int`
(the Python `strftime`/`isoformat` rendering of a date is embedded as the
date itself). -/
structure GameEmbed where
  title : String
  description : String
  url : String
  statusValue : GameStatus
  availableFrom : Option Int
  availableUntil : Option Int
  thumbnail : Option String
  timestamp : Option Int
deriving Repr, DecidableEq

/-- `DiscordNotifier._create_game_embed`. -/
def create_game_embed (game : FreeGame) (now : Int) (include_image : Bool) : GameEmbed :=
  { title := game.title
    description :=
      game.description.take 500 ++ (if game.description.length > 500 then "..." else "")
    url := game.store_url
    statusValue := game.status now
    availableFrom := game.available_from
    availableUntil := game.available_until
    thumbnail :=
      if include_image then game.thumbnail_url else none
    timestamp := game.available_from }

/-- The JSON payload posted by `send_multiple_games_notification`. -/
structure MultiGamesPayload where
  content : String
  embeds : List GameEmbed
deriving Repr, DecidableEq

/-- `DiscordNotifier.send_multiple_games_notification`, up to the outbound
POST: `none` models the early `return False` when notifications are disabled
or no webhook URL is set; otherwise the payload that is delivered. -/
def send_multiple_games_notification (cfg : DiscordConfig) (games : List FreeGame)
    (title : String) (include_images : Bool) (now : Int) : Option MultiGamesPayload :=
  if !cfg.enabled || cfg.webhook_url == none then none
  else
    let embeds := (games.take 10).map (fun game => create_game_embed game now include_images)
    let content := "**" ++ title ++ "**"
    let content :=
      match cfg.mention_role_id with
      | some rid => "<@&" ++ rid ++ "> " ++ content
      | none => content
    some { content := content, embeds := embeds }

/-! ## Specification-side characterizations and concrete fixtures -/

/-- Declarative status rule, following the spec's words: find the first
flattened offer that is zero-discount and active-or-upcoming; `active` if it
is active, `upcoming` otherwise; `expired` when there is none. -/
def statusFirstEligible (offers : List PromotionalOffer) (now : Int) : GameStatus :=
  match offers.find?
      (fun o => o.discount_setting.discount_percentage == 0
        && (o.is_active now || o.is_upcoming now)) with
  | some o => if o.is_active now then .active else .upcoming
  | none => .expired

/-- The availableFrom rule as claimed (zero-discount-first revision): start
date of the first zero-discount offer in flattened order. -/
def available_from_zero_first (g : FreeGame) : Option Int :=
  (g.allOffersOf.find? (fun o => o.discount_setting.discount_percentage == 0)).map
    PromotionalOffer.start_date

/-- The availableUntil rule as claimed (zero-discount-first revision). -/
def available_until_zero_first (g : FreeGame) : Option Int :=
  (g.allOffersOf.find? (fun o => o.discount_setting.discount_percentage == 0)).map
    PromotionalOffer.end_date

/-- The error-cleaning behaviour as claimed: filter the `errors` array in
place, never touching its presence or anything else. -/
def clean_errors_per_claim (data : RawResponse) : RawResponse :=
  { data with
    errors := data.errors.map (fun errs =>
      errs.filter (fun e => !(e.errorCode == some "1004"))) }

/-- Fixture: a catalog entry with the given promotions block and neutral
metadata. -/
def mkGame (promos : Option Promotions) : FreeGame :=
  { title := "g"
    description := "d"
    id := "gid"
    game_namespace := "ns"
    seller := { name := "s" }
    product_slug := none
    url_slug := none
    key_images := []
    promotions := promos
    effective_date := 0 }

/-- Fixture: promotions with a single current group holding the given
offers and no upcoming groups. -/
def promosOf (offers : List PromotionalOffer) : Promotions :=
  { promotional_offers := [{ promotional_offers := offers }]
    upcoming_promotional_offers := [] }

/-- Fixture: a 50%-discount offer active on the window [10, 20). -/
def offerHalfOff : PromotionalOffer :=
  { start_date := 10, end_date := 20
    discount_setting := { discount_type := "PERCENTAGE", discount_percentage := 50 } }

/-- Fixture: a zero-discount offer on the window [30, 40). -/
def offerFreeLate : PromotionalOffer :=
  { start_date := 30, end_date := 40
    discount_setting := { discount_type := "PERCENTAGE", discount_percentage := 0 } }

/-- Fixture: a zero-discount offer on the window [0, 10). -/
def offerFreeEarly : PromotionalOffer :=
  { start_date := 0, end_date := 10
    discount_setting := { discount_type := "PERCENTAGE", discount_percentage := 0 } }

/-- Fixture entry for the availableFrom/Until claim: a discounted offer
first, a zero-discount offer second. -/
def gameHalfThenFree : FreeGame :=
  mkGame (some (promosOf [offerHalfOff, offerFreeLate]))

/-- Fixture entry whose only offer has a 50% discount. -/
def gameOnlyHalfOff : FreeGame :=
  mkGame (some (promosOf [offerHalfOff]))

/-- Fixture entry whose only offer is zero-discount on [0, 10). -/
def gameOnlyFree : FreeGame :=
  mkGame (some (promosOf [offerFreeEarly]))

/-- Fixture response whose `errors` array holds exactly one element, coded
`"1004"`. -/
def responseOnlyBenign : RawResponse :=
  { errors := some [{ errorCode := some "1004" }], body := "payload" }

/-! ## Helper lemmas -/

/-- The `offers.extend(group.promotional_offers)` loop is concatenation of
the groups' offer lists. -/
theorem foldl_extend_eq_bind (groups : List PromotionalOfferGroup)
    (acc : List PromotionalOffer) :
    groups.foldl (fun a g => a ++ g.promotional_offers) acc
      = acc ++ groups.flatMap PromotionalOfferGroup.promotional_offers := by
  induction groups generalizing acc with
  | nil => simp
  | cons g gs ih => simp [List.foldl, ih, List.append_assoc]

/-- `get_all_offers` as a concatenation of binds. -/
theorem get_all_offers_eq_bind (p : Promotions) :
    p.get_all_offers
      = p.promotional_offers.flatMap PromotionalOfferGroup.promotional_offers
        ++ p.upcoming_promotional_offers.flatMap PromotionalOfferGroup.promotional_offers := by
  simp [Promotions.get_all_offers, foldl_extend_eq_bind]

/-! ## Claims -/

/-- Claim C4: `get_all_offers` returns, preserving upstream element order,
every offer of every current group followed by every offer of every
upcoming group; current groups `[[A,B]]` with upcoming groups `[[C]]`
flatten to exactly `[A,B,C]`; an empty `Promotions` flattens to the empty
sequence (and the function is total, so it never fails). -/
theorem get_all_offers_concat_current_upcoming :
    (∀ p : Promotions,
      p.get_all_offers
        = p.promotional_offers.flatMap PromotionalOfferGroup.promotional_offers
          ++ p.upcoming_promotional_offers.flatMap PromotionalOfferGroup.promotional_offers)
    ∧ (∀ a b c : PromotionalOffer,
        (Promotions.mk [PromotionalOfferGroup.mk [a, b]] [PromotionalOfferGroup.mk [c]]).get_all_offers
          = [a, b, c])
    ∧ (Promotions.mk [] []).get_all_offers = [] := by
  refine ⟨get_all_offers_eq_bind, fun a b c => ?_, rfl⟩
  simp [get_all_offers_eq_bind]

/-- Claim C3: `is_free` is true iff some flattened offer has discount
percentage exactly 0, and is false whenever the flattened sequence is empty
(in particular when the promotions block is absent). -/
theorem is_free_iff_zero_discount_offer (g : FreeGame) :
    (g.is_free = true ↔ ∃ o ∈ g.allOffersOf, o.discount_setting.discount_percentage = 0)
    ∧ (g.allOffersOf = [] → g.is_free = false) := by
  constructor
  · cases hp : g.promotions with
    | none => simp [FreeGame.is_free, FreeGame.allOffersOf, hp]
    | some p => simp [FreeGame.is_free, FreeGame.allOffersOf, hp, List.any_eq_true]
  · intro h
    cases hp : g.promotions with
    | none => simp [FreeGame.is_free, hp]
    | some p =>
      simp [FreeGame.allOffersOf, hp] at h
      simp [FreeGame.is_free, hp, h]

/-- Witness for C3 at a concrete entry with no promotions block. -/
theorem is_free_iff_zero_discount_offer_witness :
    (mkGame none).is_free = false :=
  (is_free_iff_zero_discount_offer (mkGame none)).2 rfl

/-- Counterexample to claim C5: on an entry whose flattened offers are a
50%-discount offer on [10, 20) followed by a zero-discount offer on
[30, 40), the code returns the first offer's dates (10 and 20), not the
first zero-discount offer's dates (30 and 40) that the claim requires. -/
theorem available_from_not_zero_first_counterexample :
    gameHalfThenFree.available_from = some 10
    ∧ available_from_zero_first gameHalfThenFree = some 30
    ∧ gameHalfThenFree.available_from ≠ available_from_zero_first gameHalfThenFree
    ∧ gameHalfThenFree.available_until = some 20
    ∧ available_until_zero_first gameHalfThenFree = some 40
    ∧ gameHalfThenFree.available_until ≠ available_until_zero_first gameHalfThenFree := by
  refine ⟨rfl, rfl, by decide, rfl, rfl, by decide⟩

/-- Amended C5: `available_from`/`available_until` are the start and end
timestamps of the first offer in the whole flattened sequence regardless of
its discount (the spec's "simpler revision"), and both are absent when the
promotions block is missing or the flattened sequence is empty. -/
theorem available_from_until_first_offer_overall (g : FreeGame) :
    g.available_from = g.allOffersOf.head?.map PromotionalOffer.start_date
    ∧ g.available_until = g.allOffersOf.head?.map PromotionalOffer.end_date := by
  cases hp : g.promotions with
  | none =>
    simp [FreeGame.available_from, FreeGame.available_until, FreeGame.allOffersOf, hp]
  | some p =>
    cases ho : p.get_all_offers with
    | nil =>
      simp [FreeGame.available_from, FreeGame.available_until, FreeGame.allOffersOf, hp, ho]
    | cons o rest =>
      simp [FreeGame.available_from, FreeGame.available_until, FreeGame.allOffersOf, hp, ho]

/-- Counterexample to claim C6: a timeout is re-raised with the same typed
exception kind (`NetworkError`) as a non-429 HTTP failure — there is no
distinct timeout kind. -/
theorem timeout_same_kind_counterexample :
    get_free_games_error_kind RequestFailure.timeout = ApiErrorKind.networkError
    ∧ get_free_games_error_kind (RequestFailure.httpError 500) = ApiErrorKind.networkError
    ∧ get_free_games_error_kind RequestFailure.timeout
        = get_free_games_error_kind (RequestFailure.httpError 500) :=
  ⟨rfl, rfl, rfl⟩

/-- Amended C6: `get_free_games` reports a timeout as `NetworkError`, the
same kind as any other transport failure and as any HTTP error other than
429; only HTTP 429 gets the distinct `RateLimitError` kind (and only JSON
decode failures get `InvalidResponseError`). -/
theorem timeout_reported_as_network_error :
    get_free_games_error_kind RequestFailure.timeout = ApiErrorKind.networkError
    ∧ get_free_games_error_kind RequestFailure.requestException = ApiErrorKind.networkError
    ∧ (∀ s : Nat, s ≠ 429 →
        get_free_games_error_kind (RequestFailure.httpError s) = ApiErrorKind.networkError)
    ∧ get_free_games_error_kind (RequestFailure.httpError 429) = ApiErrorKind.rateLimitError := by
  refine ⟨rfl, rfl, fun s hs => ?_, rfl⟩
  simp [get_free_games_error_kind, hs]

/-- Witness for amended C6 at HTTP status 500. -/
theorem timeout_reported_as_network_error_witness :
    get_free_games_error_kind (RequestFailure.httpError 500) = ApiErrorKind.networkError :=
  timeout_reported_as_network_error.2.2.1 500 (by decide)

/-- Counterexample to claim C7: on a payload whose `errors` array holds
exactly one element coded `"1004"`, the code removes the `errors` key
entirely instead of leaving an empty `errors` array in place as the claim's
"everything else unchanged" reading requires. -/
theorem clean_errors_pops_empty_counterexample :
    (clean_response_errors responseOnlyBenign).errors = none
    ∧ (clean_errors_per_claim responseOnlyBenign).errors = some []
    ∧ clean_response_errors responseOnlyBenign ≠ clean_errors_per_claim responseOnlyBenign := by
  refine ⟨rfl, rfl, by decide⟩

/-- Amended C7: the cleaning step keeps the rest of the payload unchanged
and, identifying an absent `errors` key with an empty array, removes exactly
the `"1004"`-coded elements preserving the order of the others; the cleaned
result never carries a present-but-empty `errors` array (when nothing
survives the filter, the key is removed altogether). -/
theorem clean_errors_filter_characterization (data : RawResponse) :
    (clean_response_errors data).body = data.body
    ∧ (clean_response_errors data).errors.getD []
        = (data.errors.getD []).filter (fun e => !(e.errorCode == some "1004"))
    ∧ ((clean_response_errors data).errors.all fun l => !l.isEmpty) = true := by
  cases he : data.errors with
  | none => simp [clean_response_errors, he]
  | some errs =>
    by_cases hc : (errs.filter (fun e => !(e.errorCode == some "1004"))).isEmpty
    · have hnil : errs.filter (fun e => !(e.errorCode == some "1004")) = [] :=
        List.isEmpty_iff.mp hc
      refine ⟨?_, ?_, ?_⟩ <;> simp [clean_response_errors, he, hc, hnil]
    · refine ⟨?_, ?_, ?_⟩ <;> simp [clean_response_errors, he, hc]

/-- The status loop agrees with the declarative first-eligible-offer rule. -/
theorem statusLoop_eq_firstEligible (offers : List PromotionalOffer) (now : Int) :
    statusLoop offers now = statusFirstEligible offers now := by
  induction offers with
  | nil => rfl
  | cons o rest ih =>
    cases hp : (o.discount_setting.discount_percentage == 0) with
    | false =>
      simp only [statusLoop, statusFirstEligible, List.find?, hp, Bool.false_and]
      simpa [statusFirstEligible] using ih
    | true =>
      cases ha : o.is_active now with
      | true =>
        simp [statusLoop, statusFirstEligible, List.find?, hp, ha]
      | false =>
        cases hu : o.is_upcoming now with
        | true =>
          simp [statusLoop, statusFirstEligible, List.find?, hp, ha, hu]
        | false =>
          simp only [statusLoop, statusFirstEligible, List.find?, hp, ha, hu,
            Bool.true_and, Bool.or_self, if_false]
          simpa [statusFirstEligible] using ih

/-- Claim C1: on an entry with a non-empty flattened offer sequence, `status`
is the result of scanning the flattened offers in order for the first
zero-discount offer that is active or upcoming (`active` if that offer is
active, `upcoming` if it is upcoming), and `expired` when no zero-discount
offer is active or upcoming — so an entry whose only active offer carries a
non-zero discount is `expired`. -/
theorem status_scans_first_zero_discount (g : FreeGame) (now : Int)
    (h : g.allOffersOf ≠ []) :
    g.status now = statusFirstEligible g.allOffersOf now := by
  cases hp : g.promotions with
  | none => simp [FreeGame.allOffersOf, hp] at h
  | some p =>
    have ho : ¬(p.get_all_offers.isEmpty = true) := by
      simp [FreeGame.allOffersOf, hp] at h
      simp [List.isEmpty_iff, h]
    simp only [FreeGame.status, FreeGame.allOffersOf, hp]
    rw [if_neg ho]
    exact statusLoop_eq_firstEligible p.get_all_offers now

/-- Witness for C1: the entry whose only offer is 50%-off and active at
`now = 15` satisfies the scan characterization, and indeed classifies as
`expired`, never `active`. -/
theorem status_scans_first_zero_discount_witness :
    gameOnlyHalfOff.status 15 = statusFirstEligible gameOnlyHalfOff.allOffersOf 15
    ∧ gameOnlyHalfOff.status 15 = GameStatus.expired :=
  ⟨status_scans_first_zero_discount gameOnlyHalfOff 15 (by decide), by decide⟩

/-- The parse loop returns exactly the validly-constructed,
active-or-upcoming entries, in payload order. -/
theorem gamesLoop_eq_filter (elements : List RawElement) (now : Int) :
    gamesLoop elements now
      = (elements.filterMap constructFreeGame).filter
          (fun g => g.status now == GameStatus.active
            || g.status now == GameStatus.upcoming) := by
  induction elements with
  | nil => rfl
  | cons e rest ih =>
    cases hc : constructFreeGame e with
    | none => simp [gamesLoop, List.filterMap_cons, hc, ih]
    | some game =>
      cases hs : (game.status now == GameStatus.active
          || game.status now == GameStatus.upcoming) with
      | true => simp [gamesLoop, List.filterMap_cons, List.filter_cons, hc, hs, ih]
      | false => simp [gamesLoop, List.filterMap_cons, List.filter_cons, hc, hs, ih]

/-- Claim C2: parsing a raw batch yields exactly the elements that both
construct a valid entry (`constructFreeGame` succeeds; a validation failure
skips just that element) and classify as active or upcoming, in payload
order; expired entries are dropped.  `FreeGamesResponse.games` is a total
function, so no exception propagates from a bad element. -/
theorem games_filters_valid_active_upcoming (r : FreeGamesResponse) (now : Int) :
    r.games now
      = (r.elements.filterMap constructFreeGame).filter
          (fun g => g.status now == GameStatus.active
            || g.status now == GameStatus.upcoming) :=
  gamesLoop_eq_filter r.elements now

/-- The thumbnail scan loop is `find?` over the preferred-type predicate. -/
theorem thumbnailLoop_eq_find (l : List KeyImage) :
    thumbnailLoop l
      = (l.find? (fun img => preferredImageTypes.contains img.type)).map KeyImage.url := by
  induction l with
  | nil => rfl
  | cons img rest ih =>
    cases hp : preferredImageTypes.contains img.type with
    | true =>
      have hm : img.type ∈ preferredImageTypes := by simpa using hp
      simp [thumbnailLoop, List.find?, hm]
    | false =>
      have hm : img.type ∉ preferredImageTypes := by simpa using hp
      simp [thumbnailLoop, List.find?, hm, ih]

/-- Fixture for the thumbnail claim: a non-preferred image first, a
preferred one second. -/
def gameVideoThenThumb : FreeGame :=
  { mkGame none with
    key_images := [{ type := "Video", url := "x" }, { type := "Thumbnail", url := "y" }] }

/-- Claim C8: the thumbnail URL is the url of the first image whose type is
exactly `Thumbnail`, `OfferImageWide` or `DieselStoreFrontWide`; when no
image matches it falls back to the first image's url; on an empty image list
it is absent.  In particular a preferred image later in the list wins over a
non-preferred one earlier. -/
theorem thumbnail_first_preferred_or_first :
    (∀ g : FreeGame,
      g.thumbnail_url
        = match g.key_images.find? (fun img => preferredImageTypes.contains img.type) with
          | some img => some img.url
          | none => g.key_images.head?.map KeyImage.url)
    ∧ gameVideoThenThumb.thumbnail_url = some "y" := by
  refine ⟨fun g => ?_, by decide⟩
  simp only [FreeGame.thumbnail_url, thumbnailLoop_eq_find]
  cases hf : g.key_images.find? (fun img => preferredImageTypes.contains img.type) with
  | some img => simp
  | none =>
    cases hl : g.key_images with
    | nil => simp
    | cons img rest => simp [List.head?]

/-- Claim C9: whenever `send_multiple_games_notification` actually delivers
a payload, that payload carries embeds for exactly the first
`min(n, 10)` entries of the input list, in input order; a single delivery
never carries more than 10 embeds, and the remainder is not chunked (the
call builds exactly one payload). -/
theorem multi_notification_caps_ten (cfg : DiscordConfig) (games : List FreeGame)
    (title : String) (include_images : Bool) (now : Int) (p : MultiGamesPayload)
    (h : send_multiple_games_notification cfg games title include_images now = some p) :
    p.embeds.length = min games.length 10
    ∧ ∀ i (h1 : i < p.embeds.length) (h2 : i < games.length),
        p.embeds.get ⟨i, h1⟩ = create_game_embed (games.get ⟨i, h2⟩) now include_images := by
  obtain ⟨pc, pe⟩ := p
  unfold send_multiple_games_notification at h
  by_cases hc : (!cfg.enabled || cfg.webhook_url == none) = true
  · rw [if_pos hc] at h
    exact absurd h (by simp)
  · rw [if_neg hc] at h
    simp only [Option.some.injEq, MultiGamesPayload.mk.injEq] at h
    obtain ⟨hcont, hemb⟩ := h
    subst hemb
    constructor
    · simp [Nat.min_comm]
    · intro i h1 h2
      simp only [List.get_eq_getElem, List.getElem_map, List.getElem_take]

/-- Fixture Discord configuration with notifications enabled and a webhook
URL set. -/
def cfgEnabled : DiscordConfig :=
  { enabled := true, webhook_url := some "https://example.org/webhook", mention_role_id := none }

/-- Fixture: the payload `send_multiple_games_notification` builds for the
one-element list `[gameOnlyFree]` at `now = 5` without images. -/
def payloadOneGame : MultiGamesPayload :=
  { content := "**" ++ "T" ++ "**"
    embeds := ([gameOnlyFree].take 10).map (fun game => create_game_embed game 5 false) }

/-- Witness for C9 on a concrete enabled configuration and one-game list. -/
theorem multi_notification_caps_ten_witness :
    payloadOneGame.embeds.length = min [gameOnlyFree].length 10 :=
  (multi_notification_caps_ten cfgEnabled [gameOnlyFree] "T" false 5 payloadOneGame rfl).1

/-- If the status loop lands on active or upcoming, some offer in the list
is zero-discount. -/
theorem statusLoop_free_of_eligible (offers : List PromotionalOffer) (now : Int) :
    (statusLoop offers now = GameStatus.active
      ∨ statusLoop offers now = GameStatus.upcoming) →
    offers.any (fun o => o.discount_setting.discount_percentage == 0) = true := by
  induction offers with
  | nil =>
    intro h
    rcases h with h | h <;> simp [statusLoop] at h
  | cons o rest ih =>
    intro h
    cases hp : (o.discount_setting.discount_percentage == 0) with
    | true => simp [List.any_cons, hp]
    | false =>
      simp only [statusLoop, hp, Bool.false_eq_true, if_false] at h
      simp [List.any_cons, hp, ih h]

/-- Claim C10: every entry classified active or upcoming is free
(`is_free = true`), so every entry retained by the parser is a fully free
game; the converse fails — an entry whose only zero-discount offer lies
entirely in the past (window [0, 10) seen at `now = 100`) has
`is_free = true` yet status `expired`. -/
theorem active_or_upcoming_implies_free :
    (∀ (g : FreeGame) (now : Int),
        g.status now = GameStatus.active ∨ g.status now = GameStatus.upcoming →
        g.is_free = true)
    ∧ gameOnlyFree.is_free = true ∧ gameOnlyFree.status 100 = GameStatus.expired := by
  refine ⟨fun g now h => ?_, by decide, by decide⟩
  cases hp : g.promotions with
  | none => simp [FreeGame.status, hp] at h
  | some p =>
    by_cases he : (p.get_all_offers.isEmpty = true)
    · simp [FreeGame.status, hp, he] at h
    · simp only [FreeGame.status, hp, he, if_false] at h
      have hany := statusLoop_free_of_eligible p.get_all_offers now h
      simp [FreeGame.is_free, hp, hany]

/-- Witness for C10 at a concrete active free entry (`now = 5` inside the
zero-discount window [0, 10)). -/
theorem active_or_upcoming_implies_free_witness :
    gameOnlyFree.is_free = true :=
  active_or_upcoming_implies_free.1 gameOnlyFree 5 (Or.inl (by decide))
